import Mathlib

/-! # Verification of the architecture-review pipeline

Shallow embedding of the review pipeline from config.py, app.py, cli.py and
services/ai_reviewer.py.  External effects (the file read, the OpenAI client
call, the invocation of the stdlib JSON decoder) are passed in as explicit
arguments of Except type; Python exceptions are modelled by the PyExc type,
and a handler that lets an exception escape its try/except is modelled by
returning Except.error at the handler level. -/

namespace ArchReview

/-- Python exception values, carrying the text that applying str to the
exception would produce. -/
inductive PyExc where
  | attributeError (msg : String)
  | valueError (msg : String)
  | ioError (msg : String)
  | apiError (msg : String)
  | jsonDecodeError (msg : String)
  deriving DecidableEq

/-- The message text of an exception, as interpolated by the handlers. -/
def excStr : PyExc → String
  | .attributeError m => m
  | .valueError m => m
  | .ioError m => m
  | .apiError m => m
  | .jsonDecodeError m => m

/-- JSON-like values: the shape of the Python dicts built by the pipeline. -/
inductive JValue where
  | null
  | bool (b : Bool)
  | num (n : Int)
  | str (s : String)
  | arr (xs : List JValue)
  | obj (fields : List (String × JValue))

/-- Dict field access on a review result, as the CLI and web layers use it. -/
def JValue.getField : JValue → String → Option JValue
  | .obj fields, k => fields.lookup k
  | _, _ => none

/-- Truthiness of an optional Python string, such as the result of os.getenv:
falsy when absent or empty. -/
def pyTruthy : Option String → Bool
  | none => false
  | some s => !s.isEmpty

/-- Python str.strip restricted to ASCII whitespace characters. -/
def pyStrip (s : String) : String :=
  String.mk (((s.data.dropWhile Char.isWhitespace).reverse.dropWhile Char.isWhitespace).reverse)

/-- Python membership test of a dot character in a file name. -/
def hasDot (s : String) : Bool := s.data.contains '.'

/-- Index of the first occurrence of a character (list length when absent). -/
def charIndex : List Char → Char → Nat
  | [], _ => 0
  | a :: rest, c => if a = c then 0 else charIndex rest c + 1

/-- Python str.rfind: index of the last occurrence, or -1 when absent. -/
def rfindChar (c : Char) (cs : List Char) : Int :=
  if cs.contains c then ((cs.length - 1 - charIndex cs.reverse c : Nat) : Int) else -1

/-- Extension part of os.path.splitext with POSIX separators: the suffix from
the last dot, provided that dot lies after the last slash and the base name
does not consist of leading dots only. -/
def splitextExt (p : String) : String :=
  let cs := p.data
  let sepIndex := rfindChar '/' cs
  let dotIndex := rfindChar '.' cs
  if sepIndex < dotIndex then
    let start := (sepIndex + 1).toNat
    let stem := (cs.drop start).take (dotIndex.toNat - start)
    if stem.any (fun ch => ch != '.') then String.mk (cs.drop dotIndex.toNat) else ""
  else ""

/-- Python str.lower over the character list (computable by reduction, unlike
the position-indexed library toLower). -/
def pyLower (s : String) : String := String.mk (s.data.map Char.toLower)

/-- Python str.lstrip with a dot argument: drop every leading dot. -/
def lstripDots (s : String) : String := String.mk (s.data.dropWhile (fun ch => ch == '.'))

/-- Lower-cased text after the last dot, as computed by rsplit with maxsplit 1
followed by lower (the callers only evaluate it on names containing a dot). -/
def rsplitLastLower (filename : String) : String :=
  String.mk (((filename.data.reverse.takeWhile (fun ch => ch != '.')).reverse).map Char.toLower)

/-- The standard base64 alphabet used by base64.b64encode. -/
def b64alphabet : List Char := "ABCDEFGHIJKLMNOPQRSTUVWXYZabcdefghijklmnopqrstuvwxyz0123456789+/".data

/-- Character of the base64 alphabet at a six-bit value. -/
def b64char (n : Nat) : Char := b64alphabet.getD n 'A'

/-- Position of a character in the base64 alphabet. -/
def b64index (c : Char) : Nat := charIndex b64alphabet c

/-- Standard base64 of a byte sequence with padding, as base64.b64encode
produces it. -/
def b64encode : List Nat → List Char
  | [] => []
  | [a] => [b64char (a / 4), b64char (a % 4 * 16), '=', '=']
  | [a, b] => [b64char (a / 4), b64char (a % 4 * 16 + b / 16), b64char (b % 16 * 4), '=']
  | a :: b :: c :: rest =>
      b64char (a / 4) :: b64char (a % 4 * 16 + b / 16) ::
        b64char (b % 16 * 4 + c / 64) :: b64char (c % 64) :: b64encode rest

/-- Base64 decoding, the inverse of b64encode on its range. -/
def b64decode : List Char → List Nat
  | c1 :: c2 :: c3 :: c4 :: rest =>
      if c3 = '=' then [b64index c1 * 4 + b64index c2 / 16]
      else if c4 = '=' then
        [b64index c1 * 4 + b64index c2 / 16, b64index c2 % 16 * 16 + b64index c3 / 4]
      else
        (b64index c1 * 4 + b64index c2 / 16) :: (b64index c2 % 16 * 16 + b64index c3 / 4) ::
          (b64index c3 % 4 * 64 + b64index c4) :: b64decode rest
  | _ => []

/-- The method encode_image of ArchitectureReviewer, applied to the bytes the
file read produced: base64-encode and decode the result to text. -/
def encode_image (contents : List Nat) : String := String.mk (b64encode contents)

/-- Class attribute ALLOWED_EXTENSIONS of Config in config.py. -/
def ALLOWED_EXTENSIONS : List String := ["png", "jpg", "jpeg", "gif", "bmp", "webp"]

/-- Class attribute OPENAI_MODEL of Config in config.py. -/
def OPENAI_MODEL : String := "gpt-4o-mini"

/-- Attribute lookup of ALLOWED_CODE_EXTENSIONS on Config: config.py defines no
such attribute, so the lookup finds nothing and an access raises
AttributeError (see allowed_code_file). -/
def ALLOWED_CODE_EXTENSIONS_attr : Option (List String) := none

/-- The message of the AttributeError raised on accessing the missing
Config attribute ALLOWED_CODE_EXTENSIONS. -/
def attrErrMsg : String := "type object \x27Config\x27 has no attribute \x27ALLOWED_CODE_EXTENSIONS\x27"

/-- The message of the ValueError raised by get_reviewer in app.py when the
API key is missing. -/
def keyErrMsg : String := "OPENAI_API_KEY is not set. Please add it to your .env file"

/-- The message printed by cli.py before exiting when the API key is missing. -/
def cliKeyMsg : String := "Error: OPENAI_API_KEY environment variable is not set"

/-- The extension-to-MIME-type mapping of review_architecture in
services/ai_reviewer.py. -/
def mime_types : List (String × String) :=
  [(".png", "image/png"), (".jpg", "image/jpeg"), (".jpeg", "image/jpeg"),
   (".gif", "image/gif"), (".webp", "image/webp")]

/-- MIME type resolution of review_architecture: look the lowered dotted
extension up in mime_types and fall back to image/png. -/
def mimeResolve (ext : String) : String := (mime_types.lookup ext).getD "image/png"

/-- The extension-to-language mapping appearing in app.py review_code and in
cli.py main. -/
def language_map : List (String × String) :=
  [("py", "Python"), ("js", "JavaScript"), ("ts", "TypeScript"),
   ("java", "Java"), ("go", "Go"), ("rb", "Ruby"), ("php", "PHP"),
   ("c", "C"), ("cpp", "C++"), ("rs", "Rust")]

/-- Language detection of cli.py main for a code path: splitext, lower, strip
the leading dot, and look the result up in the language map. -/
def detectLanguageCli (path : String) : Option String :=
  language_map.lookup (lstripDots (pyLower (splitextExt path)))

/-- The architecture-review prompt of review_architecture, transcribed verbatim
from services/ai_reviewer.py (braces and apostrophes written as escapes). -/
def architecturePrompt : String := String.intercalate "\n" [
  "You are an expert software architect. Analyze this software architecture diagram and provide a comprehensive review.",
  "",
  "Return your analysis as a JSON object with this exact structure:",
  "",
  "\x7b",
  "  \"issues\": [",
  "    \x7b",
  "      \"title\": \"Name of the issue\",",
  "      \"problem\": \"What\x27s wrong\",",
  "      \"impact\": \"Why it matters\",",
  "      \"mitigation\": [\"Step 1\", \"Step 2\", \"Step 3\"]",
  "    \x7d",
  "  ],",
  "  \"security\": [",
  "    \x7b",
  "      \"concern\": \"Security issue\",",
  "      \"risk\": \"What could go wrong\",",
  "      \"mitigation\": [\"Solution 1\", \"Solution 2\"]",
  "    \x7d",
  "  ],",
  "  \"scalability\": [",
  "    \x7b",
  "      \"issue\": \"Scalability problem\",",
  "      \"impact\": \"What happens as system grows\",",
  "      \"mitigation\": [\"Architectural change 1\", \"Architectural change 2\"]",
  "    \x7d",
  "  ],",
  "  \"bestPractices\": [",
  "    \x7b",
  "      \"practice\": \"What\x27s missing\",",
  "      \"whyImportant\": \"Benefits of this practice\",",
  "      \"implementation\": [\"How to implement step 1\", \"How to implement step 2\"]",
  "    \x7d",
  "  ],",
  "  \"recommendations\": [",
  "    \x7b",
  "      \"priority\": 1,",
  "      \"title\": \"Most important change\",",
  "      \"description\": \"Why this is priority 1\",",
  "      \"steps\": [\"Implementation step 1\", \"Implementation step 2\"]",
  "    \x7d",
  "  ]",
  "\x7d",
  "",
  "Be specific and actionable in all mitigation strategies. Each mitigation should be an array of concrete steps."
]

/-- Scanner for the JSON keys embedded in a prompt: a key is a quoted run of
characters whose closing quote is immediately followed by a colon.  The fuel
argument bounds the recursion by the length of the text. -/
def extractKeysAux : Nat → List Char → List String
  | 0, _ => []
  | _ + 1, [] => []
  | fuel + 1, c :: rest =>
      if c = '\"' then
        let content := rest.takeWhile (fun d => d != '\"')
        let after := rest.dropWhile (fun d => d != '\"')
        match after with
        | '\"' :: ':' :: tail => String.mk content :: extractKeysAux fuel tail
        | '\"' :: tail => extractKeysAux fuel tail
        | _ => []
      else extractKeysAux fuel rest

/-- All JSON keys named in a prompt text, in order of appearance. -/
def extractKeys (s : String) : List String := extractKeysAux s.data.length s.data

/-- The field names print_review in cli.py reads from a successful review
payload: the five top-level sections tested with a membership check, and the
nested fields indexed inside each section. -/
def printReviewFields : List String :=
  ["issues", "title", "problem", "impact", "mitigation",
   "security", "concern", "risk",
   "scalability", "issue",
   "bestPractices", "practice", "whyImportant", "implementation",
   "recommendations", "priority", "description", "steps"]

/-- One request to the external model endpoint, as assembled by the reviewer:
model identifier, prompt text, optional embedded image data URL, response
format constraint and maximum output token count. -/
structure ModelInvocation where
  model : String
  prompt : String
  imageUrl : Option String
  responseFormat : String
  maxTokens : Nat

/-- A web response: the JSON body and the HTTP status code. -/
structure HttpResp where
  body : JValue
  status : Nat

/-- The success envelope built by the reviewer methods. -/
def envOk (review : JValue) (model : String) : JValue :=
  .obj [("success", .bool true), ("review", review), ("model", .str model)]

/-- The failure envelope built inside the reviewer methods: it also carries a
null review field, mirroring the except branch of review_architecture. -/
def envFailNull (msg : String) : JValue :=
  .obj [("success", .bool false), ("error", .str msg), ("review", .null)]

/-- The failure envelope built directly by the web handlers. -/
def envFail (msg : String) : JValue :=
  .obj [("success", .bool false), ("error", .str msg)]

/-- The truthiness test the callers apply to the success entry of a result. -/
def successFlag (v : JValue) : Bool :=
  match v.getField "success" with
  | some (.bool b) => b
  | _ => false

/-- The model invocation review_architecture constructs: the architecture
prompt, the image embedded as a base64 data URL with the resolved MIME type,
a json_object response format, and a 4000 output-token bound. -/
def archInvocation (image_path : String) (contents : List Nat) : ModelInvocation :=
  { model := OPENAI_MODEL
    prompt := architecturePrompt
    imageUrl := some ("data:" ++ mimeResolve (pyLower (splitextExt image_path)) ++
      ";base64," ++ encode_image contents)
    responseFormat := "json_object"
    maxTokens := 4000 }

/-- The method review_architecture of ArchitectureReviewer.  The file read,
the client call and the JSON decoding are the explicit fallible arguments; the
surrounding try/except converts any of their exceptions into the failure
envelope, so the function is total.  The second component counts the requests
issued to the external model endpoint. -/
def review_architecture (image_path : String) (fileRead : Except PyExc (List Nat))
    (call : ModelInvocation → Except PyExc String)
    (jsonParse : String → Except PyExc JValue) : JValue × Nat :=
  match fileRead with
  | .error e => (envFailNull (excStr e), 0)
  | .ok contents =>
    match call (archInvocation image_path contents) with
    | .error e => (envFailNull (excStr e), 1)
    | .ok review_json =>
      match jsonParse review_json with
      | .error e => (envFailNull (excStr e), 1)
      | .ok review_data => (envOk review_data OPENAI_MODEL, 1)

/-- Modelled from the spec: review_code_flow is invoked from app.py and cli.py
but its definition is not among the source files.  Per spec section 4.2 the
code-review prompt states the reviewer persona and embeds the target schema
(the field names print_code_review in cli.py consumes). -/
def codeFlowInstructions : String :=
  "You are an expert code reviewer. Analyze the flow of the following code and return a JSON object with the fields flowIssues, codeSmells, suggestions, refactoring and priorityChanges."

/-- Modelled from the spec: the language clause of the code-review prompt,
interpolating the source-language label when present and omitted gracefully
when absent (spec section 4.2). -/
def languageClause : Option String → String
  | some lang => "The code is written in " ++ lang ++ "."
  | none => ""

/-- Modelled from the spec: the full code-review prompt, the instruction text
with the language clause, concatenated with the source text (spec sections
4.2 and 4.3). -/
def codeFlowPrompt (language : Option String) (code : String) : String :=
  codeFlowInstructions ++ "\n" ++ languageClause language ++ "\nCode:\n" ++ code

/-- Modelled from the spec: the text-only model invocation of the code-flow
review, with the constrained response format and bounded output size of spec
section 4.3. -/
def codeFlowInvocation (language : Option String) (code : String) : ModelInvocation :=
  { model := OPENAI_MODEL
    prompt := codeFlowPrompt language code
    imageUrl := none
    responseFormat := "json_object"
    maxTokens := 4000 }

/-- Modelled from the spec: the method review_code_flow, absent from the source
files; per spec sections 4.3 to 4.5 it issues one call, decodes the response,
and wraps every outcome in the same envelope shapes as review_architecture.
The second component counts the requests issued. -/
def review_code_flow (code : String) (language : Option String)
    (call : ModelInvocation → Except PyExc String)
    (jsonParse : String → Except PyExc JValue) : JValue × Nat :=
  match call (codeFlowInvocation language code) with
  | .error e => (envFailNull (excStr e), 1)
  | .ok review_json =>
    match jsonParse review_json with
    | .error e => (envFailNull (excStr e), 1)
    | .ok review_data => (envOk review_data OPENAI_MODEL, 1)

/-- The guard of get_reviewer in app.py: with a falsy OPENAI_API_KEY it raises
ValueError before any reviewer is constructed.  The lazy singleton caching is
behaviourally irrelevant here because construction is deterministic. -/
def get_reviewer (apiKey : Option String) : Except PyExc Unit :=
  if pyTruthy apiKey then Except.ok () else Except.error (PyExc.valueError keyErrMsg)

/-- The key-presence gate at the top of cli.py main: the message printed before
exiting with code 1, or nothing when the key is set. -/
def cliKeyCheck (apiKey : Option String) : Option String :=
  if pyTruthy apiKey then none else some cliKeyMsg

/-- The helper allowed_code_file of app.py.  The conjunction short-circuits:
without a dot the result is False; with a dot, the attribute access on Config
raises AttributeError because ALLOWED_CODE_EXTENSIONS is not defined. -/
def allowed_code_file (filename : String) : Except PyExc Bool :=
  if hasDot filename then
    match ALLOWED_CODE_EXTENSIONS_attr with
    | some exts => Except.ok (exts.contains (rsplitLastLower filename))
    | none => Except.error (PyExc.attributeError attrErrMsg)
  else Except.ok false

/-- The extension gate of validate_code_path in cli.py: after the existence
checks it computes the lowered, dot-stripped extension and tests membership in
Config.ALLOWED_CODE_EXTENSIONS, which config.py does not define, so every
evaluation raises AttributeError before any code file is read. -/
def validate_code_path_gate (path : String) : Except PyExc Bool :=
  let e := lstripDots (pyLower (splitextExt path))
  match ALLOWED_CODE_EXTENSIONS_attr with
  | some exts => Except.ok (exts.contains e)
  | none => Except.error (PyExc.attributeError attrErrMsg)

/-- An uploaded file part: its client-supplied name and the outcome of reading
and UTF-8-decoding its content. -/
structure FilePart where
  filename : String
  content : Except PyExc String

/-- A request to the code-review endpoint: the optional raw-code form field,
the optional language form field, and the optional uploaded file part. -/
structure CodeReviewRequest where
  formCode : Option String
  formLanguage : Option String
  filePart : Option FilePart

/-- The first branch condition of review_code in app.py: a code form field is
present and its stripped text is truthy. -/
def rawCodeTruthy (req : CodeReviewRequest) : Bool :=
  match req.formCode with
  | some c => !(pyStrip c).isEmpty
  | none => false

/-- The tail of review_code in app.py after code and language are determined:
the empty-code guard, then the reviewer invocation inside try/except, with the
status code chosen by the success flag. -/
def reviewCodeFinish (apiKey : Option String) (code : String) (language : Option String)
    (call : ModelInvocation → Except PyExc String)
    (jsonParse : String → Except PyExc JValue) : Except PyExc (HttpResp × Nat) :=
  if (pyStrip code).isEmpty then Except.ok (⟨envFail "Empty code provided", 400⟩, 0)
  else
    match get_reviewer apiKey with
    | .error e => Except.ok (⟨envFail (excStr e), 500⟩, 0)
    | .ok _ =>
      let result := review_code_flow code language call jsonParse
      if successFlag result.1 then Except.ok (⟨result.1, 200⟩, result.2)
      else Except.ok (⟨result.1, 500⟩, result.2)

/-- The handler review_code of app.py.  An ok value is the JSON response with
its status; an error value is an exception escaping the handler, which has no
try/except around the branch dispatch, so the allowlist AttributeError
propagates uncaught.  The Nat counts external model calls. -/
def review_code (apiKey : Option String) (req : CodeReviewRequest)
    (call : ModelInvocation → Except PyExc String)
    (jsonParse : String → Except PyExc JValue) : Except PyExc (HttpResp × Nat) :=
  if rawCodeTruthy req then
    reviewCodeFinish apiKey (req.formCode.getD "") req.formLanguage call jsonParse
  else
    match req.filePart with
    | some fp =>
      if fp.filename = "" then Except.ok (⟨envFail "No file selected", 400⟩, 0)
      else
        match allowed_code_file fp.filename with
        | .error e => Except.error e
        | .ok false => Except.error (PyExc.attributeError attrErrMsg)
        | .ok true =>
          match fp.content with
          | .error e => Except.ok (⟨envFail ("Error reading file: " ++ excStr e), 400⟩, 0)
          | .ok text =>
            reviewCodeFinish apiKey text (language_map.lookup (rsplitLastLower fp.filename))
              call jsonParse
    | none => Except.ok (⟨envFail "No code or file provided", 400⟩, 0)

/-- Follows the spec: the documented media subtype of an image extension, for
comparison with the resolution the code performs (spec section 4.1 and the
glossary entry for media subtype). -/
def specDocumentedSubtype (e : String) : String :=
  "image/" ++ (if e = "jpg" then "jpeg" else e)

/-- A transport stub for closed statements: every call fails. -/
def callStub : ModelInvocation → Except PyExc String :=
  fun _ => Except.error (PyExc.apiError "stub transport failure")

/-- A decoder stub for closed statements: every text fails to decode. -/
def parseStub : String → Except PyExc JValue :=
  fun _ => Except.error (PyExc.jsonDecodeError "Expecting value: line 1 column 1 (char 0)")

/-- A decoder stub for closed statements: every text decodes to an object that
carries an issues array but no security section. -/
def parseOkStub : String → Except PyExc JValue :=
  fun _ => Except.ok (JValue.obj [("issues", JValue.arr [])])

/-- Decoding a base64 character recovers its six-bit value. -/
theorem b64index_b64char : ∀ n, n < 64 → b64index (b64char n) = n := by decide

/-- No base64 alphabet character is the padding character. -/
theorem b64char_ne_pad : ∀ n, n < 64 → b64char n ≠ '=' := by decide

/-- Base64 decoding inverts base64 encoding on byte sequences. -/
theorem b64_decode_encode : ∀ bs : List Nat, (∀ b ∈ bs, b < 256) → b64decode (b64encode bs) = bs
  | [], _ => rfl
  | [a], h => by
      have ha : a < 256 := h a (by simp)
      have h1 : a / 4 < 64 := by omega
      have h2 : a % 4 * 16 < 64 := by omega
      simp [b64encode, b64decode, b64index_b64char _ h1, b64index_b64char _ h2]
      omega
  | [a, b], h => by
      have ha : a < 256 := h a (by simp)
      have hb : b < 256 := h b (by simp)
      have h1 : a / 4 < 64 := by omega
      have h2 : a % 4 * 16 + b / 16 < 64 := by omega
      have h3 : b % 16 * 4 < 64 := by omega
      have hne : b64char (b % 16 * 4) ≠ '=' := b64char_ne_pad _ h3
      simp [b64encode, b64decode, hne, b64index_b64char _ h1, b64index_b64char _ h2,
        b64index_b64char _ h3]
      omega
  | a :: b :: c :: rest, h => by
      have ha : a < 256 := h a (by simp)
      have hb : b < 256 := h b (by simp)
      have hc : c < 256 := h c (by simp)
      have ih := b64_decode_encode rest (fun x hx => h x (by simp [hx]))
      have h1 : a / 4 < 64 := by omega
      have h2 : a % 4 * 16 + b / 16 < 64 := by omega
      have h3 : b % 16 * 4 + c / 64 < 64 := by omega
      have h4 : c % 64 < 64 := by omega
      have hne3 : b64char (b % 16 * 4 + c / 64) ≠ '=' := b64char_ne_pad _ h3
      have hne4 : b64char (c % 64) ≠ '=' := b64char_ne_pad _ h4
      simp [b64encode, b64decode, hne3, hne4, b64index_b64char _ h1, b64index_b64char _ h2,
        b64index_b64char _ h3, b64index_b64char _ h4, ih]
      omega

/-- C10: the encoder output of a readable file is a function of the file's
bytes alone (encode_image is a pure function of them), and base64-decoding the
returned text restores exactly the original bytes. -/
theorem c10_encode_image_roundtrip (bs : List Nat) (h : ∀ b ∈ bs, b < 256) :
    b64decode (encode_image bs).data = bs :=
  b64_decode_encode bs h

/-- Witness for C10 at the three bytes of the text Man. -/
theorem c10_encode_image_roundtrip_witness :
    (∀ b ∈ [77, 97, 110], b < 256) ∧ b64decode (encode_image [77, 97, 110]).data = [77, 97, 110] :=
  ⟨by decide, c10_encode_image_roundtrip [77, 97, 110] (by decide)⟩

set_option maxRecDepth 100000 in
/-- C9: the JSON keys embedded in the architecture prompt are, as a set,
exactly the field names print_review in cli.py consumes: the extracted key
sequence is as listed, every extracted key is a consumed field name, and every
consumed field name occurs among the extracted keys. -/
theorem c9_prompt_fields_match_consumer :
    extractKeys architecturePrompt =
      ["issues", "title", "problem", "impact", "mitigation",
       "security", "concern", "risk", "mitigation",
       "scalability", "issue", "impact", "mitigation",
       "bestPractices", "practice", "whyImportant", "implementation",
       "recommendations", "priority", "title", "description", "steps"]
    ∧ ((extractKeys architecturePrompt).all (fun k => printReviewFields.contains k)
        && printReviewFields.all (fun k => (extractKeys architecturePrompt).contains k)) = true :=
  ⟨by rfl, by rfl⟩

/-- C7 counterexample: bmp belongs to the allowed image extension set, yet the
MIME mapping has no entry for it, so the resolution yields the default
image/png rather than the bmp media subtype. -/
theorem c7_bmp_default_counterexample :
    "bmp" ∈ ALLOWED_EXTENSIONS ∧ mimeResolve ".bmp" = "image/png"
      ∧ specDocumentedSubtype "bmp" = "image/bmp"
      ∧ mimeResolve ".bmp" ≠ specDocumentedSubtype "bmp" :=
  ⟨by decide, rfl, rfl, by decide⟩

/-- C7 amended: for every allowed image extension other than bmp the encoder
resolves that extension's documented media subtype; bmp, although allowed, is
absent from the mapping and falls back to the default image/png, as does
every extension outside the mapping; the resolution is a total function and
never fails. -/
theorem c7_mime_resolution (e : String) (he : e ∈ ALLOWED_EXTENSIONS) (hne : e ≠ "bmp") :
    mimeResolve ("." ++ e) = specDocumentedSubtype e
      ∧ mimeResolve ".bmp" = "image/png"
      ∧ ∀ s, mime_types.lookup s = none → mimeResolve s = "image/png" := by
  refine ⟨?_, rfl, ?_⟩
  · fin_cases he
    · rfl
    · rfl
    · rfl
    · rfl
    · exact absurd rfl hne
    · rfl
  · intro s hs
    simp [mimeResolve, hs]

/-- Witness for C7 at the extension jpg. -/
theorem c7_mime_resolution_witness :
    "jpg" ∈ ALLOWED_EXTENSIONS ∧ ("jpg" : String) ≠ "bmp"
      ∧ (mimeResolve ("." ++ "jpg") = specDocumentedSubtype "jpg"
          ∧ mimeResolve ".bmp" = "image/png"
          ∧ ∀ s, mime_types.lookup s = none → mimeResolve s = "image/png") :=
  ⟨by decide, by decide, c7_mime_resolution "jpg" (by decide) (by decide)⟩

/-- C8 counterexample: when the file read raises, review_architecture performs
zero requests to the external endpoint, refuting that every review request
issues exactly one request. -/
theorem c8_zero_calls_counterexample :
    (review_architecture "diagram.png" (Except.error (PyExc.ioError "No such file or directory"))
        callStub parseStub).2 = 0 ∧ (0 : Nat) ≠ 1 :=
  ⟨rfl, by decide⟩

/-- C8 amended: the architecture review issues at most one external request,
exactly one once the image read succeeds (also when the call itself fails or
the decode fails, hence no retries), and the request it builds constrains the
response format to a JSON object and bounds the output at 4000 tokens. -/
theorem c8_single_invocation (image_path : String) (contents : List Nat)
    (call : ModelInvocation → Except PyExc String)
    (jsonParse : String → Except PyExc JValue) :
    (review_architecture image_path (Except.ok contents) call jsonParse).2 = 1
      ∧ (∀ fileRead, (review_architecture image_path fileRead call jsonParse).2 ≤ 1)
      ∧ (archInvocation image_path contents).responseFormat = "json_object"
      ∧ (archInvocation image_path contents).maxTokens = 4000 := by
  refine ⟨?_, ?_, rfl, rfl⟩
  · cases hc : call (archInvocation image_path contents) with
    | error e => simp [review_architecture, hc]
    | ok t =>
      cases hp : jsonParse t with
      | error e => simp [review_architecture, hc, hp]
      | ok v => simp [review_architecture, hc, hp]
  · intro fileRead
    cases fileRead with
    | error e => simp [review_architecture]
    | ok contents2 =>
      cases hc : call (archInvocation image_path contents2) with
      | error e => simp [review_architecture, hc]
      | ok t =>
        cases hp : jsonParse t with
        | error e => simp [review_architecture, hc, hp]
        | ok v => simp [review_architecture, hc, hp]

/-- C4: for every input, review_architecture returns exactly one of the two
envelope shapes: a success with the review payload and the model identifier,
or a failure with an error message.  Every internal exception is captured by
the surrounding try/except, which the embedding reflects by being a total
function into response values, so no uncaught fault reaches the caller. -/
theorem c4_envelope_dichotomy (image_path : String) (fileRead : Except PyExc (List Nat))
    (call : ModelInvocation → Except PyExc String)
    (jsonParse : String → Except PyExc JValue) :
    ((review_architecture image_path fileRead call jsonParse).1.getField "success"
          = some (JValue.bool true)
        ∧ (∃ v, (review_architecture image_path fileRead call jsonParse).1.getField "review"
          = some v)
        ∧ (review_architecture image_path fileRead call jsonParse).1.getField "model"
          = some (JValue.str OPENAI_MODEL))
      ∨ ((review_architecture image_path fileRead call jsonParse).1.getField "success"
          = some (JValue.bool false)
        ∧ ∃ m, (review_architecture image_path fileRead call jsonParse).1.getField "error"
          = some (JValue.str m)) := by
  cases fileRead with
  | error e => exact Or.inr ⟨rfl, ⟨excStr e, rfl⟩⟩
  | ok contents =>
    cases hc : call (archInvocation image_path contents) with
    | error e =>
      right
      rw [show review_architecture image_path (Except.ok contents) call jsonParse
          = (envFailNull (excStr e), 1) by simp [review_architecture, hc]]
      exact ⟨rfl, ⟨excStr e, rfl⟩⟩
    | ok t =>
      cases hp : jsonParse t with
      | error e =>
        right
        rw [show review_architecture image_path (Except.ok contents) call jsonParse
            = (envFailNull (excStr e), 1) by simp [review_architecture, hc, hp]]
        exact ⟨rfl, ⟨excStr e, rfl⟩⟩
      | ok v =>
        left
        rw [show review_architecture image_path (Except.ok contents) call jsonParse
            = (envOk v OPENAI_MODEL, 1) by simp [review_architecture, hc, hp]]
        exact ⟨rfl, ⟨v, rfl⟩, rfl⟩

/-- C5: with a readable image and a successful transport call, the outcome is
a failure exactly when JSON decoding of the response text fails; the failure
carries the decoder's message and a null review payload, and a decoded object
is installed as the success payload exactly as decoded, without any deeper
field validation. -/
theorem c5_parse_boundary (image_path : String) (contents : List Nat) (text : String)
    (jsonParse : String → Except PyExc JValue) :
    (((review_architecture image_path (Except.ok contents) (fun _ => Except.ok text)
            jsonParse).1.getField "success" = some (JValue.bool false))
        ↔ ∃ e, jsonParse text = Except.error e)
      ∧ (∀ v, jsonParse text = Except.ok v →
          (review_architecture image_path (Except.ok contents) (fun _ => Except.ok text)
              jsonParse).1 = envOk v OPENAI_MODEL)
      ∧ (∀ e, jsonParse text = Except.error e →
          (review_architecture image_path (Except.ok contents) (fun _ => Except.ok text)
              jsonParse).1 = envFailNull (excStr e)
          ∧ (review_architecture image_path (Except.ok contents) (fun _ => Except.ok text)
              jsonParse).1.getField "review" = some JValue.null) := by
  cases hp : jsonParse text with
  | error e =>
    have hr : (review_architecture image_path (Except.ok contents) (fun _ => Except.ok text)
        jsonParse).1 = envFailNull (excStr e) := by
      simp [review_architecture, hp]
    refine ⟨⟨fun _ => ⟨e, rfl⟩, fun _ => by rw [hr]; rfl⟩, ?_, ?_⟩
    · intro v hv
      simp at hv
    · intro e' he'
      injection he' with h'
      subst h'
      exact ⟨hr, by rw [hr]; rfl⟩
  | ok v =>
    have hr : (review_architecture image_path (Except.ok contents) (fun _ => Except.ok text)
        jsonParse).1 = envOk v OPENAI_MODEL := by
      simp [review_architecture, hp]
    refine ⟨⟨fun hfalse => ?_, fun hex => ?_⟩, ?_, ?_⟩
    · rw [hr] at hfalse
      simp [envOk, JValue.getField, List.lookup] at hfalse
    · obtain ⟨e, he⟩ := hex
      simp at he
    · intro v' hv'
      injection hv' with h'
      subst h'
      exact hr
    · intro e he
      simp at he

/-- Witness for C5: a decoded object lacking the security section is accepted
as the success payload unchanged, and an undecodable response produces the
failure envelope with the decoder message. -/
theorem c5_parse_boundary_witness :
    (review_architecture "diagram.png" (Except.ok [1, 2, 3]) (fun _ => Except.ok "x")
          parseOkStub).1 = envOk (JValue.obj [("issues", JValue.arr [])]) OPENAI_MODEL
      ∧ (review_architecture "diagram.png" (Except.ok [1, 2, 3]) (fun _ => Except.ok "x")
          parseStub).1 = envFailNull "Expecting value: line 1 column 1 (char 0)" :=
  ⟨(c5_parse_boundary "diagram.png" [1, 2, 3] "x" parseOkStub).2.1 _ rfl,
   ((c5_parse_boundary "diagram.png" [1, 2, 3] "x" parseStub).2.2 _ rfl).1⟩

/-- C1 counterexample: a concrete code-review request for a file with
extension rs never has its language hint interpolated into any prompt sent to
the model, because the request faults first on the missing allowed-code-
extension configuration: the web upload of mycode.rs ends in an uncaught
AttributeError from the allowlist check (no invocation reaches the transport,
exhibited with two different transports), and the CLI path validator raises
the same AttributeError before the file is even read. -/
theorem c1_rs_file_fault_counterexample :
    review_code (some "sk-key") ⟨none, none, some ⟨"mycode.rs", Except.ok "fn main()"⟩⟩
        callStub parseStub = Except.error (PyExc.attributeError attrErrMsg)
      ∧ review_code (some "sk-key") ⟨none, none, some ⟨"mycode.rs", Except.ok "fn main()"⟩⟩
        (fun _ => Except.ok "ok") parseStub = Except.error (PyExc.attributeError attrErrMsg)
      ∧ validate_code_path_gate "mycode.rs" = Except.error (PyExc.attributeError attrErrMsg) :=
  ⟨rfl, rfl, rfl⟩

/-- C1 amended: every code-review request for a file with extension rs faults
with AttributeError on the missing Config.ALLOWED_CODE_EXTENSIONS before any
prompt is sent, both in the web upload handler and in the CLI path validator,
so the language hint is never interpolated on the file path; the source's
extension-to-language map itself does resolve rs to Rust; and for code
submitted as raw text, the only path that reaches the reviewer, the code-flow
operation (modelled from the spec, as review_code_flow is not among the
source files) builds a prompt containing the caller-supplied language label
when present and omits the clause when absent, exhibited end to end by a
transport stub echoing the prompt it received. -/
theorem c1_rs_language_amended :
    (∀ apiKey content call jsonParse,
        review_code apiKey ⟨none, none, some ⟨"mycode.rs", content⟩⟩ call jsonParse
          = Except.error (PyExc.attributeError attrErrMsg))
      ∧ (∀ path, validate_code_path_gate path = Except.error (PyExc.attributeError attrErrMsg))
      ∧ detectLanguageCli "mycode.rs" = some "Rust"
      ∧ language_map.lookup "rs" = some "Rust"
      ∧ (∀ code lang, ∃ pre post, codeFlowPrompt (some lang) code = pre ++ (lang ++ post))
      ∧ (∀ code, codeFlowPrompt none code = codeFlowInstructions ++ "\n" ++ "\nCode:\n" ++ code)
      ∧ (∀ code jsonParse, (pyStrip code).isEmpty = false →
          review_code (some "sk-key") ⟨some code, some "Rust", none⟩
              (fun inv => Except.error (PyExc.apiError inv.prompt)) jsonParse
            = Except.ok (⟨envFailNull (codeFlowPrompt (some "Rust") code), 500⟩, 1)) := by
  refine ⟨?_, ?_, by decide, by decide, ?_, ?_, ?_⟩
  · intro apiKey content call jsonParse
    have hd : hasDot "mycode.rs" = true := by decide
    have hne : ("mycode.rs" : String) ≠ "" := by decide
    simp [review_code, rawCodeTruthy, allowed_code_file, hd, hne, ALLOWED_CODE_EXTENSIONS_attr]
  · intro path
    rfl
  · intro code lang
    refine ⟨codeFlowInstructions ++ "\n" ++ "The code is written in ",
      "." ++ "\nCode:\n" ++ code, ?_⟩
    simp only [codeFlowPrompt, languageClause, String.append_assoc]
  · intro code
    simp only [codeFlowPrompt, languageClause, String.append_empty, String.append_assoc]
  · intro code jsonParse h
    have hgr : get_reviewer (some "sk-key") = Except.ok () := rfl
    simp [review_code, rawCodeTruthy, h, reviewCodeFinish, hgr, review_code_flow,
      successFlag, envFailNull, JValue.getField, codeFlowInvocation, excStr]

/-- Witness for C1 at a concrete Rust-labelled raw-code request. -/
theorem c1_rs_language_amended_witness :
    (pyStrip "print(1)").isEmpty = false
      ∧ review_code (some "sk-key") ⟨some "print(1)", some "Rust", none⟩
            (fun inv => Except.error (PyExc.apiError inv.prompt)) parseStub
          = Except.ok (⟨envFailNull (codeFlowPrompt (some "Rust") "print(1)"), 500⟩, 1) :=
  ⟨by decide, c1_rs_language_amended.2.2.2.2.2.2 "print(1)" parseStub (by decide)⟩

/-- C2 counterexample: an empty raw-code form field fails the truthiness test
of the first branch, so with no file attached the handler answers with the
message No code or file provided, not Empty code provided, refuting the
claimed error message (though still a failure without any external call). -/
theorem c2_empty_code_message_counterexample :
    review_code (some "sk-key") ⟨some "", none, none⟩ callStub parseStub
        = Except.ok (⟨envFail "No code or file provided", 400⟩, 0)
      ∧ "No code or file provided" ≠ "Empty code provided" :=
  ⟨rfl, by decide⟩

/-- C2 amended: empty or whitespace-only code never reaches the external call,
but the message differs from the claim: an empty or whitespace-only raw-code
form field with no file attached yields the failure No code or file provided,
while the message Empty code provided is produced only by the guard that sits
after branch dispatch (reached with file-read code), likewise with zero
external calls. -/
theorem c2_empty_code_short_circuit (apiKey : Option String) (c : String)
    (lang : Option String) (call : ModelInvocation → Except PyExc String)
    (jsonParse : String → Except PyExc JValue) (h : (pyStrip c).isEmpty = true) :
    review_code apiKey ⟨some c, lang, none⟩ call jsonParse
        = Except.ok (⟨envFail "No code or file provided", 400⟩, 0)
      ∧ reviewCodeFinish apiKey c lang call jsonParse
        = Except.ok (⟨envFail "Empty code provided", 400⟩, 0) := by
  constructor
  · simp [review_code, rawCodeTruthy, h]
  · simp [reviewCodeFinish, h]

/-- Witness for C2 at a whitespace-only form field. -/
theorem c2_empty_code_short_circuit_witness :
    (pyStrip "   ").isEmpty = true
      ∧ (review_code (some "sk-key") ⟨some "   ", none, none⟩ callStub parseStub
          = Except.ok (⟨envFail "No code or file provided", 400⟩, 0)
        ∧ reviewCodeFinish (some "sk-key") "   " none callStub parseStub
          = Except.ok (⟨envFail "Empty code provided", 400⟩, 0)) :=
  ⟨by decide, c2_empty_code_short_circuit (some "sk-key") "   " none callStub parseStub (by decide)⟩

/-- C3: a code-review request arriving as a file upload with a file name and
no truthy raw-code field makes the handler evaluate the extension allowlist,
which faults with AttributeError because Config defines no
ALLOWED_CODE_EXTENSIONS attribute; the fault arises outside the handler's
try/except, so the request ends in an uncaught exception instead of the
uniform failure envelope.  The allowlist helper itself faults on every dotted
file name. -/
theorem c3_allowlist_attribute_fault (apiKey : Option String) (req : CodeReviewRequest)
    (fp : FilePart) (call : ModelInvocation → Except PyExc String)
    (jsonParse : String → Except PyExc JValue)
    (hraw : rawCodeTruthy req = false) (hfp : req.filePart = some fp)
    (hname : fp.filename ≠ "") :
    review_code apiKey req call jsonParse = Except.error (PyExc.attributeError attrErrMsg)
      ∧ ∀ fn, hasDot fn = true →
          allowed_code_file fn = Except.error (PyExc.attributeError attrErrMsg) := by
  constructor
  · by_cases hd : hasDot fp.filename
    · simp [review_code, hraw, hfp, hname, allowed_code_file, hd, ALLOWED_CODE_EXTENSIONS_attr]
    · simp [review_code, hraw, hfp, hname, allowed_code_file, hd, ALLOWED_CODE_EXTENSIONS_attr]
  · intro fn hdot
    simp [allowed_code_file, hdot, ALLOWED_CODE_EXTENSIONS_attr]

/-- Witness for C3 at an uploaded file named main.py. -/
theorem c3_allowlist_attribute_fault_witness :
    rawCodeTruthy ⟨none, none, some ⟨"main.py", Except.ok "print(1)"⟩⟩ = false
      ∧ (⟨none, none, some ⟨"main.py", Except.ok "print(1)"⟩⟩ : CodeReviewRequest).filePart
          = some ⟨"main.py", Except.ok "print(1)"⟩
      ∧ ("main.py" : String) ≠ ""
      ∧ (review_code none ⟨none, none, some ⟨"main.py", Except.ok "print(1)"⟩⟩ callStub parseStub
            = Except.error (PyExc.attributeError attrErrMsg)
          ∧ ∀ fn, hasDot fn = true →
              allowed_code_file fn = Except.error (PyExc.attributeError attrErrMsg)) :=
  ⟨rfl, rfl, by decide,
    c3_allowlist_attribute_fault none ⟨none, none, some ⟨"main.py", Except.ok "print(1)"⟩⟩
      ⟨"main.py", Except.ok "print(1)"⟩ callStub parseStub rfl rfl (by decide)⟩

/-- C6: with the API credential absent, the handler returns the configuration
failure naming OPENAI_API_KEY with zero external calls issued; get_reviewer
raises that ValueError before any reviewer is constructed; the CLI gate exits
with a message that also names the credential; and with the credential
present a transport failure surfaces its own message through the same
envelope, so the two messages are distinguishable. -/
theorem c6_missing_key_config_error (apiKey : Option String) (req : CodeReviewRequest)
    (call : ModelInvocation → Except PyExc String)
    (jsonParse : String → Except PyExc JValue)
    (hkey : pyTruthy apiKey = false) (hraw : rawCodeTruthy req = true) :
    review_code apiKey req call jsonParse = Except.ok (⟨envFail keyErrMsg, 500⟩, 0)
      ∧ get_reviewer apiKey = Except.error (PyExc.valueError keyErrMsg)
      ∧ (∃ pre post, keyErrMsg = pre ++ ("OPENAI_API_KEY" ++ post))
      ∧ cliKeyCheck apiKey = some cliKeyMsg
      ∧ (∃ pre post, cliKeyMsg = pre ++ ("OPENAI_API_KEY" ++ post))
      ∧ (∀ msg, review_code (some "sk-key") req
            (fun _ => Except.error (PyExc.apiError msg)) jsonParse
          = Except.ok (⟨envFailNull msg, 500⟩, 1)) := by
  cases hc : req.formCode with
  | none => rw [rawCodeTruthy, hc] at hraw; simp at hraw
  | some c =>
    have hstrip : (pyStrip c).isEmpty = false := by
      rw [rawCodeTruthy, hc] at hraw
      simpa using hraw
    have hgr : get_reviewer apiKey = Except.error (PyExc.valueError keyErrMsg) := by
      simp [get_reviewer, hkey]
    refine ⟨?_, hgr, ⟨"", " is not set. Please add it to your .env file", rfl⟩,
      by simp [cliKeyCheck, hkey], ⟨"Error: ", " environment variable is not set", rfl⟩, ?_⟩
    · simp [review_code, hraw, reviewCodeFinish, hc, hstrip, hgr, excStr]
    · intro msg
      have hgr2 : get_reviewer (some "sk-key") = Except.ok () := rfl
      simp [review_code, hraw, reviewCodeFinish, hc, hstrip, hgr2, review_code_flow,
        successFlag, envFailNull, JValue.getField, excStr]

/-- Witness for C6 with the credential unset and a concrete raw-code request. -/
theorem c6_missing_key_config_error_witness :
    pyTruthy none = false
      ∧ rawCodeTruthy ⟨some "print(1)", none, none⟩ = true
      ∧ (review_code none ⟨some "print(1)", none, none⟩ callStub parseStub
            = Except.ok (⟨envFail keyErrMsg, 500⟩, 0)
          ∧ get_reviewer none = Except.error (PyExc.valueError keyErrMsg)
          ∧ (∃ pre post, keyErrMsg = pre ++ ("OPENAI_API_KEY" ++ post))
          ∧ cliKeyCheck none = some cliKeyMsg
          ∧ (∃ pre post, cliKeyMsg = pre ++ ("OPENAI_API_KEY" ++ post))
          ∧ (∀ msg, review_code (some "sk-key") ⟨some "print(1)", none, none⟩
                (fun _ => Except.error (PyExc.apiError msg)) parseStub
              = Except.ok (⟨envFailNull msg, 500⟩, 1))) :=
  ⟨rfl, rfl,
    c6_missing_key_config_error none ⟨some "print(1)", none, none⟩ callStub parseStub rfl rfl⟩

end ArchReview
